import Mathlib

/-!
Shallow embedding of the go-kube-get resolution core (`findGVR` and `Get` from
the package `gokubeget`).  Go strings are modelled as lists of characters
(ASCII byte model); the three external collaborators held by a `KubeGet` value
(REST mapper, discovery client, dynamic client) are modelled as a structure of
pure functions, and every collaborator invocation is recorded in a trace of
`CallEvent`s so that "no collaborator is consulted" claims are provable.
A `none` overall result models a Go runtime panic (out-of-bounds indexing).
-/

namespace GoKubeGet

/-- Go strings, modelled as lists of characters (one `Char` per byte;
the identifiers at issue are ASCII). -/
abbrev Str := List Char

/-- Convenience conversion from a Lean string literal to the `Str` model. -/
def str (s : String) : Str := s.toList

/-- ASCII uppercase of one character, as in the repo's own `toUpper` helper
(`'a'..'z'` mapped down by 32, everything else unchanged). -/
def goToUpperChar (c : Char) : Char :=
  if 'a' ≤ c ∧ c ≤ 'z' then Char.ofNat (c.toNat - 32) else c

/-- ASCII lowercase of one character, mirroring the repo's `toLower` helper. -/
def goToLowerChar (c : Char) : Char :=
  if 'A' ≤ c ∧ c ≤ 'Z' then Char.ofNat (c.toNat + 32) else c

/-- Model of `strings.ToUpper` (ASCII fragment): uppercase every character. -/
def goToUpper (s : Str) : Str := s.map goToUpperChar

/-- Model of `strings.ToLower` (ASCII fragment): lowercase every character. -/
def goToLower (s : Str) : Str := s.map goToLowerChar

/-- Go's `strings.isSeparator` on the ASCII range: alphanumerics and
underscore are not separators, every other ASCII character is. -/
def isSeparator (c : Char) : Bool :=
  if c.toNat ≤ 0x7F then
    ¬(('0' ≤ c ∧ c ≤ '9') ∨ ('a' ≤ c ∧ c ≤ 'z') ∨ ('A' ≤ c ∧ c ≤ 'Z') ∨ c = '_')
  else false

/-- Worker for `goTitle`: the flag says whether the previous character was a
separator (initially true, matching Go's `prev := ' '`). -/
def goTitleAux : Bool → Str → Str
  | _, [] => []
  | prevSep, c :: rest =>
    (if prevSep then goToUpperChar c else c) :: goTitleAux (isSeparator c) rest

/-- Go's `strings.Title`: uppercase the first letter of every
separator-delimited word, leaving other characters unchanged. -/
def goTitle (s : Str) : Str := goTitleAux true s

/-- Model of `strings.Split` on a one-character separator: keeps empty segments,
and splitting the empty string yields one empty segment, as in Go. -/
def goSplit (sep : Char) : Str → List Str
  | [] => [[]]
  | c :: rest =>
    if c = sep then [] :: goSplit sep rest
    else
      match goSplit sep rest with
      | [] => [[c]]
      | p :: ps => (c :: p) :: ps

/-- Model of `strings.Join` with a one-character separator. -/
def goJoin (sep : Char) : List Str → Str
  | [] => []
  | [p] => p
  | p :: ps => p ++ sep :: goJoin sep ps

/-- Model of `strings.Contains` for a one-character needle. -/
def goContains (s : Str) (c : Char) : Bool := s.contains c

/-- Model of `strings.EqualFold` (ASCII fragment): equality up to case. -/
def goEqualFold (a b : Str) : Bool := goToLower a == goToLower b

/-- The type `schema.GroupVersionResource`. -/
structure GVR where
  Group : Str
  Version : Str
  Resource : Str
deriving DecidableEq, Repr

/-- The type `schema.GroupVersion`. -/
structure GroupVersion where
  Group : Str
  Version : Str
deriving DecidableEq, Repr

/-- The type `schema.GroupKind` (the code always leaves `Group` empty). -/
structure GroupKind where
  Group : Str
  Kind : Str
deriving DecidableEq, Repr

/-- The one field of `meta.RESTMapping` the code reads. -/
structure RESTMapping where
  Resource : GVR
deriving DecidableEq, Repr

/-- The type `metav1.APIResource`: the fields `findGVR` reads. -/
structure APIResource where
  Name : Str
  Kind : Str
  ShortNames : List Str
deriving DecidableEq, Repr

/-- The type `metav1.APIResourceList`: a group-version string and its resources. -/
structure APIResourceList where
  GroupVersion : Str
  APIResources : List APIResource
deriving DecidableEq, Repr

/-- A listed object (exposes a name and an owning namespace). -/
structure Item where
  name : Str
  nspace : Str
deriving DecidableEq, Repr

/-- The type `unstructured.UnstructuredList` (only its item collection matters here). -/
structure UnstructuredList where
  items : List Item
deriving DecidableEq, Repr

/-- Model of `gv.WithResource(name)`. -/
def withResource (gv : GroupVersion) (resource : Str) : GVR :=
  ⟨gv.Group, gv.Version, resource⟩

/-- Model of `schema.ParseGroupVersion`: empty or "/" parse to the zero value; no
slash means version only; one slash splits group/version; more is an error. -/
def parseGroupVersion (gv : Str) : Except Unit GroupVersion :=
  if gv = [] ∨ gv = ['/'] then .ok ⟨[], []⟩
  else
    match gv.count '/' with
    | 0 => .ok ⟨[], gv⟩
    | 1 => .ok ⟨gv.takeWhile (fun c => c ≠ '/'), (gv.dropWhile (fun c => c ≠ '/')).drop 1⟩
    | _ => .error ()

/-- One collaborator invocation, as recorded in the instrumentation trace. -/
inductive CallEvent where
  | resourceFor (g : GVR)
  | restMappings (gk : GroupKind)
  | serverPreferredResources
  | listResource (g : GVR) (ns : Option Str)
deriving DecidableEq, Repr

/-- Errors `findGVR` can return.  `invalidInput` is "resource name cannot be
empty"; `providerError` wraps a `ServerPreferredResources` failure together
with the identifier; `notFound` is the final "resource not found in any API
group" error carrying the identifier. -/
inductive ResolveErr where
  | invalidInput
  | providerError (name : Str)
  | notFound (name : Str)
deriving DecidableEq, Repr

/-- Errors `Get` can return: `failedToFind` wraps a resolution error with the
original identifier; `failedToList` wraps the listing error. -/
inductive GetErr where
  | failedToFind (name : Str) (inner : ResolveErr)
  | failedToList (inner : Unit)
deriving DecidableEq, Repr

/-- The `KubeGet` receiver: its three collaborators (`restMapper`,
`discoveryClient`, `dynamicClient`) modelled as pure functions.  Collaborator
errors carry no information the code inspects, so they are `Unit`. -/
structure KubeGet where
  resourceFor : GVR → Except Unit GVR
  restMappings : GroupKind → Except Unit (List RESTMapping)
  serverPreferredResources : Except Unit (List (Option APIResourceList))
  listResource : GVR → Option Str → Except Unit UnstructuredList

/-- The case-variation list of strategy 4.  Indexing `resourceName[0]` in Go
panics on an empty string, modelled by `none`; otherwise the candidates are
`resourceName`, `strings.Title(resourceName)`, `strings.ToUpper(resourceName)`,
and `strings.ToUpper(string(resourceName[0])) + strings.ToLower(resourceName[1:])`. -/
def kindVariations : Str → Option (List Str)
  | [] => none
  | c :: rest => some [c :: rest, goTitle (c :: rest), goToUpper (c :: rest),
      goToUpper [c] ++ goToLower rest]

/-- Strategy 4's loop: call `RESTMappings` on each candidate kind in order and
return the first mapping of the first err-free non-empty result, together with
the trace of attempted calls. -/
def tryKindVariations (k : KubeGet) : List Str → Option GVR × List CallEvent
  | [] => (none, [])
  | v :: rest =>
    match k.restMappings ⟨[], v⟩ with
    | .ok (m :: _) => (some m.Resource, [.restMappings ⟨[], v⟩])
    | _ =>
      let r := tryKindVariations k rest
      (r.1, .restMappings ⟨[], v⟩ :: r.2)

/-- Strategy 5's inner scan over one group-version's resources: match the
plural name case-sensitively, the kind case-insensitively, then each
shortname exactly; first match wins. -/
def scanResources (s : Str) (gv : GroupVersion) : List APIResource → Option GVR
  | [] => none
  | r :: rest =>
    if r.Name == s || goEqualFold r.Kind s then some (withResource gv r.Name)
    else if r.ShortNames.contains s then some (withResource gv r.Name)
    else scanResources s gv rest

/-- Strategy 5's outer scan: skip nil lists and lists whose group-version
string does not parse, otherwise scan the list's resources in order. -/
def scanLists (s : Str) : List (Option APIResourceList) → Option GVR
  | [] => none
  | none :: rest => scanLists s rest
  | some l :: rest =>
    match parseGroupVersion l.GroupVersion with
    | .error _ => scanLists s rest
    | .ok gv =>
      match scanResources s gv l.APIResources with
      | some g => some g
      | none => scanLists s rest

/-- Strategy 5 from the snapshot fetch on: a fetch failure is fatal
(`providerError`), a miss after the scan is the final `notFound`. -/
def strategy5 (k : KubeGet) (s : Str) : Except ResolveErr GVR × List CallEvent :=
  match k.serverPreferredResources with
  | .error _ => (.error (.providerError s), [.serverPreferredResources])
  | .ok lists =>
    match scanLists s lists with
    | some g => (.ok g, [.serverPreferredResources])
    | none => (.error (.notFound s), [.serverPreferredResources])

/-- Strategies 2-5 of `findGVR` (everything after the empty-string guard and
the fully-qualified parse): direct `ResourceFor` lookup, exact-kind
`RESTMappings` lookup, the case-variation retry, then the exhaustive scan. -/
def findGVRStrategies (k : KubeGet) (s : Str) : Option (Except ResolveErr GVR × List CallEvent) :=
  match k.resourceFor ⟨[], [], s⟩ with
  | .ok gvr => some (.ok gvr, [.resourceFor ⟨[], [], s⟩])
  | .error _ =>
    match k.restMappings ⟨[], s⟩ with
    | .ok (m :: _) => some (.ok m.Resource, [.resourceFor ⟨[], [], s⟩, .restMappings ⟨[], s⟩])
    | _ =>
      match kindVariations s with
      | none => none
      | some vs =>
        match (tryKindVariations k vs).1 with
        | some g =>
          some (.ok g, .resourceFor ⟨[], [], s⟩ :: .restMappings ⟨[], s⟩ :: (tryKindVariations k vs).2)
        | none =>
          some ((strategy5 k s).1,
            (CallEvent.resourceFor ⟨[], [], s⟩ :: CallEvent.restMappings ⟨[], s⟩ ::
              (tryKindVariations k vs).2) ++ (strategy5 k s).2)

/-- The resolver `findGVR`: empty-name guard, fully-qualified `resource.version.group`
parse (purely syntactic, no collaborator), then the fallback strategies. -/
def findGVR (k : KubeGet) (s : Str) : Option (Except ResolveErr GVR × List CallEvent) :=
  if s = [] then some (.error .invalidInput, [])
  else if goContains s '.' = true then
    if 3 ≤ (goSplit '.' s).length then
      some (.ok ⟨goJoin '.' ((goSplit '.' s).drop 2),
        (goSplit '.' s).getD 1 [], (goSplit '.' s).getD 0 []⟩, [])
    else findGVRStrategies k s
  else findGVRStrategies k s

/-- The namespace argument passed to the dynamic client: `none` when the
namespace string is empty (`Resource(gvr)` alone), `some ns` otherwise
(`Resource(gvr).Namespace(ns)`). -/
def nsArg (ns : Str) : Option Str := if ns = [] then none else some ns

/-- The facade `Get`: resolve, then list.  On resolution failure it returns
the zero `GVR`, a nil list, and the resolution error wrapped with the
identifier; on listing failure it returns the resolved `GVR`, a nil list, and
the wrapped listing error; on success all three of descriptor, list, no error. -/
def Get (k : KubeGet) (resourceName ns : Str) :
    Option ((GVR × Option UnstructuredList × Option GetErr) × List CallEvent) :=
  match findGVR k resourceName with
  | none => none
  | some (.error e, t) => some ((⟨[], [], []⟩, none, some (.failedToFind resourceName e)), t)
  | some (.ok gvr, t) =>
    match k.listResource gvr (nsArg ns) with
    | .error u => some ((gvr, none, some (.failedToList u)), t ++ [.listResource gvr (nsArg ns)])
    | .ok l => some ((gvr, some l, none), t ++ [.listResource gvr (nsArg ns)])

/-! ### Spec-side reformulations and instrumentation predicates -/

/-- Modelled from the spec: the predicate of one strategy-5 match — the
identifier matches the plural name case-sensitively, the Kind
case-insensitively, or some shortname exactly. -/
def entryMatches (s : Str) (r : APIResource) : Bool :=
  r.Name == s || goEqualFold r.Kind s || r.ShortNames.contains s

/-- Modelled from the spec: the discovery snapshot flattened into entries in
its own iteration order, skipping nil lists and unparseable group-versions,
each entry paired with its group-version. -/
def flattenEntries : List (Option APIResourceList) → List (GroupVersion × APIResource)
  | [] => []
  | none :: rest => flattenEntries rest
  | some l :: rest =>
    match parseGroupVersion l.GroupVersion with
    | .error _ => flattenEntries rest
    | .ok gv => l.APIResources.map (fun r => (gv, r)) ++ flattenEntries rest

/-- Modelled from the spec: "the identifier first-letter-uppercased with the
remainder unchanged", the wording of the second case-variation candidate. -/
def capFirstSpec : Str → Str
  | [] => []
  | c :: rest => goToUpperChar c :: rest

/-- True when a `RESTMappings` call on this kind misses (an error or an empty
mapping list), i.e. the strategy-4 loop moves on past this candidate. -/
def kindMiss (k : KubeGet) (v : Str) : Bool :=
  match k.restMappings ⟨[], v⟩ with
  | .ok (_ :: _) => false
  | _ => true

/-- True exactly on listing-capability events in a trace. -/
def isListEvent : CallEvent → Bool
  | .listResource _ _ => true
  | _ => false

/-! ### Concrete collaborator fixtures used by the witnesses -/

/-- Collaborators that fail on every call. -/
def allFail : KubeGet :=
  ⟨fun _ => .error (), fun _ => .error (), .error (), fun _ _ => .error ()⟩

/-- The core `pods` descriptor. -/
def podsGVR : GVR := ⟨[], str "v1", str "pods"⟩

/-- Collaborators whose direct `ResourceFor` lookup always resolves to
`pods`, with a working listing capability; everything else fails. -/
def kResourceOk : KubeGet :=
  ⟨fun _ => .ok podsGVR, fun _ => .error (), .error (), fun _ _ => .ok ⟨[]⟩⟩

/-- The descriptor of the DataSciencePipelinesApplication resource. -/
def dspaGVR : GVR :=
  ⟨str "datasciencepipelinesapplications.opendatahub.io", str "v1",
   str "datasciencepipelinesapplications"⟩

/-- The discovery entry whose only match for "dspa" is its shortname alias. -/
def dspaResource : APIResource :=
  ⟨str "datasciencepipelinesapplications", str "DataSciencePipelinesApplication",
   [str "dspa"]⟩

/-- The group-version of the DSPA discovery entry. -/
def dspaGV : GroupVersion :=
  ⟨str "datasciencepipelinesapplications.opendatahub.io", str "v1"⟩

/-- Collaborators whose direct lookup resolves to `pods` but whose listing
capability fails. -/
def kListFail : KubeGet :=
  ⟨fun _ => .ok podsGVR, fun _ => .error (), .error (), fun _ _ => .error ()⟩

/-- Collaborators whose `RESTMappings` succeeds only on the exact kind
"Dspa"; everything else fails. -/
def kOnlyDspaKind : KubeGet :=
  ⟨fun _ => .error (),
   fun gk => if gk.Kind == str "Dspa" then .ok [⟨dspaGVR⟩] else .error (),
   .error (), fun _ _ => .error ()⟩

/-! ### Helper lemmas -/

instance {ε α : Type _} [DecidableEq ε] [DecidableEq α] : DecidableEq (Except ε α) := fun a b =>
  match a, b with
  | .ok x, .ok y =>
    if h : x = y then isTrue (congrArg Except.ok h)
    else isFalse (fun e => h (Except.ok.inj e))
  | .error x, .error y =>
    if h : x = y then isTrue (congrArg Except.error h)
    else isFalse (fun e => h (Except.error.inj e))
  | .ok _, .error _ => isFalse (fun e => Except.noConfusion e)
  | .error _, .ok _ => isFalse (fun e => Except.noConfusion e)

/-- Splitting a string that does not contain the separator yields the string
as a single segment. -/
theorem goSplit_of_not_contains (sep : Char) (s : Str) (h : s.contains sep = false) :
    goSplit sep s = [s] := by
  induction s with
  | nil => rfl
  | cons c rest ih =>
    have h1 : (sep == c) = false ∧ rest.contains sep = false := by
      simpa using h
    have hc : ¬(c = sep) := by
      intro e
      subst e
      simp at h1
    simp only [goSplit, if_neg hc, ih h1.2]

/-! ### Claims -/

/-- C1: for every identifier whose dot-split has three or more segments,
resolution invokes no collaborator (empty trace, any collaborators) and
returns the descriptor built from segment 0 (resource), segment 1 (version)
and the remaining segments rejoined with dots (group). -/
theorem fullyQualified_parse (k : KubeGet) (s : Str)
    (h : 3 ≤ (goSplit '.' s).length) :
    findGVR k s = some (.ok ⟨goJoin '.' ((goSplit '.' s).drop 2),
      (goSplit '.' s).getD 1 [], (goSplit '.' s).getD 0 []⟩, []) := by
  have hne : s ≠ [] := by
    intro e
    subst e
    simp [goSplit] at h
  have hc : goContains s '.' = true := by
    by_contra hcf
    have hfalse : s.contains '.' = false := by
      simpa [goContains] using hcf
    rw [goSplit_of_not_contains '.' s hfalse] at h
    simp at h
  simp [findGVR, hne, hc, h]

/-- Witness for C1 at "pods.v1.": the claim's concrete example, resolving to
the core-group pods descriptor with an empty collaborator trace. -/
theorem fullyQualified_parse_witness :
    findGVR allFail (str "pods.v1.") = some (.ok ⟨[], str "v1", str "pods"⟩, []) ∧
      3 ≤ (goSplit '.' (str "pods.v1.")).length := by
  constructor
  · have hthm := fullyQualified_parse allFail (str "pods.v1.") (by decide)
    rw [hthm]
    decide
  · decide

/-- C2: the empty identifier always fails with the invalid-input error and
the collaborator trace is empty, for any collaborators. -/
theorem empty_identifier_invalid (k : KubeGet) :
    findGVR k [] = some (.error .invalidInput, []) := rfl

/-- C5: when strategy 1 falls through (fewer than three dot segments) and the
direct resource-name lookup succeeds, its result is returned unchanged and the
trace shows exactly that one call — no Kind lookup, case-variation retry or
alias scan is attempted, whatever the other collaborators would answer. -/
theorem direct_lookup_wins (k : KubeGet) (s : Str) (g : GVR)
    (hne : s ≠ []) (hlen : (goSplit '.' s).length < 3)
    (hok : k.resourceFor ⟨[], [], s⟩ = .ok g) :
    findGVR k s = some (.ok g, [.resourceFor ⟨[], [], s⟩]) := by
  have hlen2 : ¬(3 ≤ (goSplit '.' s).length) := by omega
  by_cases hc : goContains s '.' = true
  · simp [findGVR, hne, hc, hlen2, findGVRStrategies, hok]
  · simp [findGVR, hne, hc, findGVRStrategies, hok]

/-- Witness for C5 at "pods" with collaborators whose other lookups would
also answer: the direct lookup's descriptor is returned with a one-call trace. -/
theorem direct_lookup_wins_witness :
    findGVR kResourceOk (str "pods") =
      some (.ok podsGVR, [.resourceFor ⟨[], [], str "pods"⟩]) :=
  direct_lookup_wins kResourceOk (str "pods") podsGVR (by decide) (by decide) (by decide)

/-- On a non-empty identifier the fallback strategies always produce a
result: the case-variation generation cannot fault. -/
theorem findGVRStrategies_isSome (k : KubeGet) (c : Char) (rest : Str) :
    (findGVRStrategies k (c :: rest)).isSome = true := by
  unfold findGVRStrategies
  repeat' split
  all_goals simp_all [kindVariations]

/-- C8: the model never reaches the panic marker — for every identifier the
resolver returns a value (the empty-name guard fires before the indexing of
the first character), and in particular case-variation generation succeeds on
every one-character identifier. -/
theorem case_variation_no_fault :
    (∀ (k : KubeGet) (s : Str), (findGVR k s).isSome = true) ∧
    (∀ ch : Char, (kindVariations [ch]).isSome = true) := by
  constructor
  · intro k s
    cases s with
    | nil => rfl
    | cons c rest =>
      by_cases hc : goContains (c :: rest) '.' = true
      · by_cases hl : 3 ≤ (goSplit '.' (c :: rest)).length
        · simp [findGVR, hc, hl]
        · simp [findGVR, hc, hl, findGVRStrategies_isSome]
      · simp [findGVR, hc, findGVRStrategies_isSome]
  · intro ch
    rfl

/-- Strategy 5 can only fail with the fatal provider error (exactly when the
snapshot fetch fails) or the final not-found error. -/
theorem strategy5_fst_error (k : KubeGet) (s : Str) (e : ResolveErr)
    (h : (strategy5 k s).1 = .error e) :
    e = .notFound s ∨ (e = .providerError s ∧ k.serverPreferredResources = .error ()) := by
  unfold strategy5 at h
  split at h
  · rename_i u heq
    simp at h
    right
    cases u
    exact ⟨h.symm, heq⟩
  · rename_i lists heq
    split at h
    · simp at h
    · simp at h
      left
      exact h.symm

/-- Any error coming out of the fallback strategies is the final not-found
error or strategy 5's fatal provider error. -/
theorem findGVRStrategies_error_classify (k : KubeGet) (s : Str) (e : ResolveErr)
    (t : List CallEvent) (h : findGVRStrategies k s = some (.error e, t)) :
    e = .notFound s ∨ (e = .providerError s ∧ k.serverPreferredResources = .error ()) := by
  unfold findGVRStrategies at h
  split at h
  · simp at h
  · split at h
    · simp at h
    · split at h
      · exact absurd h (by simp)
      · split at h
        · simp at h
        · simp at h
          exact strategy5_fst_error k s e h.1

/-- C3: for a non-empty identifier, the only errors the resolution phase can
surface are the final not-found error carrying the identifier, or the fatal
provider error (carrying the identifier) that arises exactly when strategy 5's
snapshot fetch fails; per-strategy failures of strategies 1-4 never appear. -/
theorem resolution_error_surface (k : KubeGet) (s : Str) (e : ResolveErr)
    (t : List CallEvent) (hne : s ≠ []) (h : findGVR k s = some (.error e, t)) :
    e = .notFound s ∨ (e = .providerError s ∧ k.serverPreferredResources = .error ()) := by
  unfold findGVR at h
  rw [if_neg hne] at h
  by_cases hc : goContains s '.' = true
  · rw [if_pos hc] at h
    by_cases hl : 3 ≤ (goSplit '.' s).length
    · rw [if_pos hl] at h; simp at h
    · rw [if_neg hl] at h
      exact findGVRStrategies_error_classify k s e t h
  · rw [if_neg hc] at h
    exact findGVRStrategies_error_classify k s e t h

/-- Witness for C3 at "x" with collaborators that all fail: the surfaced
error is the fatal provider error carrying the identifier. -/
theorem resolution_error_surface_witness :
    ResolveErr.providerError (str "x") = .notFound (str "x") ∨
      (ResolveErr.providerError (str "x") = .providerError (str "x") ∧
        allFail.serverPreferredResources = .error ()) :=
  resolution_error_surface allFail (str "x") (.providerError (str "x"))
    [.resourceFor ⟨[], [], str "x"⟩, .restMappings ⟨[], str "x"⟩,
     .restMappings ⟨[], str "x"⟩, .restMappings ⟨[], str "X"⟩,
     .restMappings ⟨[], str "X"⟩, .restMappings ⟨[], str "X"⟩,
     .serverPreferredResources]
    (by decide) (by decide)

/-- The trace of strategy 5 is always exactly one snapshot fetch. -/
theorem strategy5_snd (k : KubeGet) (s : Str) :
    (strategy5 k s).2 = [.serverPreferredResources] := by
  unfold strategy5
  split
  · rfl
  · split <;> rfl

/-- The strategy-4 loop only ever calls `RESTMappings`: its trace has no
listing event. -/
theorem tryKindVariations_trace_noList (k : KubeGet) (vs : List Str) :
    ((tryKindVariations k vs).2.all fun ev => !isListEvent ev) = true := by
  induction vs with
  | nil => rfl
  | cons v rest ih =>
    unfold tryKindVariations
    split
    · rfl
    · simp only [List.all_cons, Bool.and_eq_true]
      exact ⟨rfl, ih⟩

/-- The fallback strategies never produce a listing event in their trace. -/
theorem findGVRStrategies_trace_noList (k : KubeGet) (s : Str)
    (r : Except ResolveErr GVR) (t : List CallEvent)
    (h : findGVRStrategies k s = some (r, t)) :
    (t.all fun ev => !isListEvent ev) = true := by
  unfold findGVRStrategies at h
  split at h
  · simp at h
    obtain ⟨h1, h2⟩ := h
    subst h2
    rfl
  · split at h
    · simp at h
      obtain ⟨h1, h2⟩ := h
      subst h2
      rfl
    · split at h
      · simp at h
      · split at h
        · simp at h
          obtain ⟨h1, h2⟩ := h
          subst h2
          simp only [List.all_cons, Bool.and_eq_true]
          exact ⟨rfl, rfl, tryKindVariations_trace_noList k _⟩
        · simp at h
          obtain ⟨h1, h2⟩ := h
          subst h2
          simp only [List.all_cons, List.all_append, Bool.and_eq_true, strategy5_snd]
          exact ⟨rfl, rfl, tryKindVariations_trace_noList k _, rfl, rfl⟩

/-- The resolution phase never produces a listing event in its trace. -/
theorem findGVR_trace_noList (k : KubeGet) (s : Str)
    (r : Except ResolveErr GVR) (t : List CallEvent)
    (h : findGVR k s = some (r, t)) :
    (t.all fun ev => !isListEvent ev) = true := by
  unfold findGVR at h
  split at h
  · simp at h
    obtain ⟨h1, h2⟩ := h
    subst h2
    rfl
  · split at h
    · split at h
      · simp at h
        obtain ⟨h1, h2⟩ := h
        subst h2
        rfl
      · exact findGVRStrategies_trace_noList k s r t h
    · exact findGVRStrategies_trace_noList k s r t h

/-- C10: whenever resolution fails, the facade returns the zero-valued
descriptor, a nil item collection, and the wrapped error, with the trace
unchanged from resolution. -/
theorem get_zero_on_resolution_failure (k : KubeGet) (s ns : Str) (e : ResolveErr)
    (t : List CallEvent) (h : findGVR k s = some (.error e, t)) :
    Get k s ns = some ((⟨[], [], []⟩, none, some (.failedToFind s e)), t) := by
  unfold Get
  rw [h]

/-- Witness for C10: failing collaborators on "x" make the facade return the
zero descriptor and a nil collection alongside the wrapped provider error. -/
theorem get_zero_on_resolution_failure_witness :
    Get allFail (str "x") (str "ns") = some ((⟨[], [], []⟩, none,
      some (.failedToFind (str "x") (.providerError (str "x")))),
      [.resourceFor ⟨[], [], str "x"⟩, .restMappings ⟨[], str "x"⟩,
       .restMappings ⟨[], str "x"⟩, .restMappings ⟨[], str "X"⟩,
       .restMappings ⟨[], str "X"⟩, .restMappings ⟨[], str "X"⟩,
       .serverPreferredResources]) :=
  get_zero_on_resolution_failure allFail (str "x") (str "ns")
    (.providerError (str "x"))
    [.resourceFor ⟨[], [], str "x"⟩, .restMappings ⟨[], str "x"⟩,
     .restMappings ⟨[], str "x"⟩, .restMappings ⟨[], str "X"⟩,
     .restMappings ⟨[], str "X"⟩, .restMappings ⟨[], str "X"⟩,
     .serverPreferredResources]
    (by decide)

/-- C9: after a successful resolution the facade makes exactly one listing
call, with no namespace restriction exactly when the scope string is empty
and scoped to the given namespace otherwise, unconditionally in the resolved
descriptor (no namespaced-resource check). -/
theorem lister_scope (k : KubeGet) (s ns : Str) (g : GVR) (t : List CallEvent)
    (h : findGVR k s = some (.ok g, t)) :
    Get k s ns = some
      ((match k.listResource g (if ns = [] then none else some ns) with
        | .error u => (g, none, some (.failedToList u))
        | .ok l => (g, some l, none)),
       t ++ [.listResource g (if ns = [] then none else some ns)]) := by
  cases hl : k.listResource g (if ns = [] then none else some ns) with
  | error u => simp [Get, nsArg, h, hl]
  | ok l => simp [Get, nsArg, h, hl]

/-- Witness for C9 at "pods" in namespace "ns1": one listing call scoped to
"ns1", and the resolved descriptor returned with the listed items. -/
theorem lister_scope_witness :
    Get kResourceOk (str "pods") (str "ns1") =
      some ((podsGVR, some ⟨[]⟩, none),
        [.resourceFor ⟨[], [], str "pods"⟩,
         .listResource podsGVR (some (str "ns1"))]) := by
  have h := lister_scope kResourceOk (str "pods") (str "ns1") podsGVR
    [.resourceFor ⟨[], [], str "pods"⟩] (by decide)
  rw [h]
  decide

/-- C4: the facade's error plumbing — on resolution failure the wrapped
resolution error (annotated with the identifier) is returned and no listing
event occurs; on listing failure the resolved descriptor is still returned
alongside the wrapped listing error; and every returned error is either
wrapped with the identifier or accompanied by the resolved descriptor. -/
theorem get_error_wrapping (k : KubeGet) (s ns : Str) :
    (∀ (e : ResolveErr) (t : List CallEvent), findGVR k s = some (.error e, t) →
      Get k s ns = some ((⟨[], [], []⟩, none, some (.failedToFind s e)), t) ∧
        (t.all fun ev => !isListEvent ev) = true) ∧
    (∀ (g : GVR) (t : List CallEvent) (u : Unit),
      findGVR k s = some (.ok g, t) → k.listResource g (nsArg ns) = .error u →
      Get k s ns = some ((g, none, some (.failedToList u)),
        t ++ [.listResource g (nsArg ns)])) ∧
    (∀ (g : GVR) (l : Option UnstructuredList) (err : GetErr) (t : List CallEvent),
      Get k s ns = some ((g, l, some err), t) →
      (∃ e, err = .failedToFind s e ∧ g = ⟨[], [], []⟩) ∨
      (∃ u t2, err = .failedToList u ∧ findGVR k s = some (.ok g, t2))) := by
  refine ⟨?_, ?_, ?_⟩
  · intro e t h
    refine ⟨?_, findGVR_trace_noList k s (.error e) t h⟩
    unfold Get
    rw [h]
  · intro g t u hf hl
    unfold Get
    rw [hf]
    simp only [hl]
  · intro g l err t h
    unfold Get at h
    split at h
    · simp at h
    · rename_i e tr heq
      simp at h
      obtain ⟨⟨hg, hl2, herr⟩, htr⟩ := h
      left
      exact ⟨e, herr.symm, hg.symm⟩
    · rename_i gvr tr heq
      split at h
      · rename_i u hl
        simp at h
        obtain ⟨⟨hg, hl2, herr⟩, htr⟩ := h
        right
        exact ⟨u, tr, herr.symm, hg ▸ heq⟩
      · simp at h

/-- Witness for C4: collaborators that resolve "pods" but fail to list — the
facade still returns the resolved descriptor alongside the wrapped listing
error. -/
theorem get_error_wrapping_witness :
    Get kListFail (str "pods") (str "ns1") =
      some ((podsGVR, none, some (.failedToList ())),
        [.resourceFor ⟨[], [], str "pods"⟩] ++
          [.listResource podsGVR (nsArg (str "ns1"))]) :=
  (get_error_wrapping kListFail (str "pods") (str "ns1")).2.1 podsGVR
    [.resourceFor ⟨[], [], str "pods"⟩] () (by decide) (by decide)

/-- The inner scan of strategy 5 returns the first resource of the list that
matches by plural name, folded kind, or shortname. -/
theorem scanResources_eq_find (s : Str) (gv : GroupVersion) (rs : List APIResource) :
    scanResources s gv rs =
      (rs.find? (entryMatches s)).map fun r => withResource gv r.Name := by
  induction rs with
  | nil => rfl
  | cons r rest ih =>
    by_cases h1 : (r.Name == s || goEqualFold r.Kind s) = true
    · have h1m : r.Name = s ∨ goEqualFold r.Kind s = true := by simpa using h1
      have hm : entryMatches s r = true := by
        simp [entryMatches, h1]
      simp [scanResources, List.find?, h1, h1m, hm]
    · have h1m : ¬(r.Name = s ∨ goEqualFold r.Kind s = true) := by simpa using h1
      by_cases h2 : r.ShortNames.contains s = true
      · have h2m : s ∈ r.ShortNames := by simpa using h2
        have hm : entryMatches s r = true := by
          simp [entryMatches, h2m]
        simp [scanResources, List.find?, h1m, h2m, hm]
      · have h2m : s ∉ r.ShortNames := by simpa using h2
        have h1a : ¬(r.Name = s) := fun e => h1m (Or.inl e)
        have h1b : ¬(goEqualFold r.Kind s = true) := fun hb => h1m (Or.inr hb)
        have hm : entryMatches s r = false := by
          simp [entryMatches, h1a, h1b, h2m]
        simp [scanResources, List.find?, h1m, h2m, hm, ih]

/-- C6: the exhaustive alias scan returns the descriptor of the first entry
of the flattened snapshot (in the snapshot's own order) whose plural name
matches case-sensitively, whose kind matches case-insensitively, or one of
whose shortnames matches exactly; and an entry matched only through a
shortname alias resolves to that entry's descriptor. -/
theorem alias_scan_first_match :
    (∀ (s : Str) (lists : List (Option APIResourceList)),
      scanLists s lists =
        ((flattenEntries lists).find? fun p => entryMatches s p.2).map
          fun p => withResource p.1 p.2.Name) ∧
    (∀ (s : Str) (gv : GroupVersion) (r : APIResource) (rest : List APIResource),
      (r.Name == s) = false → goEqualFold r.Kind s = false →
      r.ShortNames.contains s = true →
      scanResources s gv (r :: rest) = some (withResource gv r.Name)) := by
  constructor
  · intro s lists
    induction lists with
    | nil => rfl
    | cons ol rest ih =>
      cases ol with
      | none => simpa [scanLists, flattenEntries] using ih
      | some l =>
        cases hp : parseGroupVersion l.GroupVersion with
        | error u => simpa [scanLists, flattenEntries, hp] using ih
        | ok gv =>
          rw [scanLists, flattenEntries]
          simp only [hp]
          rw [List.find?_append, List.find?_map, scanResources_eq_find]
          simp only [Function.comp_def]
          cases hf : l.APIResources.find? (entryMatches s) with
          | some r => simp [hf]
          | none => simp [hf, ih]
  · intro s gv r rest h1 h2 h3
    have h1m : ¬(r.Name = s) := by simpa using h1
    have h3m : s ∈ r.ShortNames := by simpa using h3
    simp [scanResources, h1, h2, h1m, h3m]

/-- Witness for C6: the "dspa" shortname example — the DSPA entry matches
only through its alias and the scan returns its descriptor. -/
theorem alias_scan_first_match_witness :
    scanResources (str "dspa") dspaGV [dspaResource] =
      some (withResource dspaGV (str "datasciencepipelinesapplications")) :=
  (alias_scan_first_match).2 (str "dspa") dspaGV dspaResource []
    (by decide) (by decide) (by decide)

/-- Counterexample to C7 as stated: on the identifier "a-b" the second
candidate the code tries is `strings.Title("a-b") = "A-B"` (every
separator-delimited word capitalized), not the claimed first-letter-only
capitalization "A-b"; the trace of the run shows "A-B" as the second
candidate's Kind-lookup argument. -/
theorem kindVariation_spec_counterexample :
    (kindVariations (str "a-b")).map (fun vs => vs.getD 1 []) = some (str "A-B") ∧
    capFirstSpec (str "a-b") = str "A-b" ∧
    ¬(str "A-B" = str "A-b") ∧
    (findGVR allFail (str "a-b")).map
        (fun r => r.2.getD 3 .serverPreferredResources) =
      some (.restMappings ⟨[], str "A-B"⟩) := by
  decide

/-- C7 (amended): the candidate spellings tried by strategy 4 are, in order:
the identifier unchanged, `strings.Title` of the identifier (the first letter
of every separator-delimited word uppercased — equal to first-letter-
uppercased-with-remainder-unchanged whenever the identifier contains no
separator), the identifier fully uppercased, and the identifier first-letter-
uppercased with the remainder lowercased; the first candidate whose Kind
lookup returns an err-free non-empty result wins. -/
theorem kindVariations_order_amended :
    (∀ (c : Char) (rest : Str),
      kindVariations (c :: rest) = some [c :: rest, goTitle (c :: rest),
        goToUpper (c :: rest), goToUpper [c] ++ goToLower rest]) ∧
    (∀ s : Str, (∀ ch ∈ s, isSeparator ch = false) → goTitle s = capFirstSpec s) ∧
    (∀ (k : KubeGet) (vs1 : List Str) (v : Str) (vs2 : List Str)
        (m : RESTMapping) (ms : List RESTMapping),
      (∀ u ∈ vs1, kindMiss k u = true) → k.restMappings ⟨[], v⟩ = .ok (m :: ms) →
      tryKindVariations k (vs1 ++ v :: vs2) =
        (some m.Resource, (vs1 ++ [v]).map fun u => .restMappings ⟨[], u⟩)) := by
  refine ⟨fun c rest => rfl, ?_, ?_⟩
  · intro s h
    cases s with
    | nil => rfl
    | cons c rest =>
      have haux : ∀ (l : Str), (∀ ch ∈ l, isSeparator ch = false) →
          goTitleAux false l = l := by
        intro l
        induction l with
        | nil => intro hl; rfl
        | cons d ds ih =>
          intro hl
          have hd : isSeparator d = false := hl d (by simp)
          simp [goTitleAux, hd, ih fun ch hc => hl ch (by simp [hc])]
      have hc : isSeparator c = false := h c (by simp)
      simp [goTitle, goTitleAux, capFirstSpec, hc,
        haux rest fun ch hc2 => h ch (by simp [hc2])]
  · intro k vs1 v vs2 m ms
    induction vs1 with
    | nil =>
      intro hmiss hok
      simp [tryKindVariations, hok]
    | cons u us ih =>
      intro hmiss hok
      have hrest : ∀ w ∈ us, kindMiss k w = true := fun w hw => hmiss w (by simp [hw])
      cases hm : k.restMappings ⟨[], u⟩ with
      | ok l =>
        cases l with
        | nil => simp [tryKindVariations, hm, ih hrest hok]
        | cons m2 l2 =>
          have hu : kindMiss k u = true := hmiss u (by simp)
          exact absurd hu (by simp [kindMiss, hm])
      | error e => simp [tryKindVariations, hm, ih hrest hok]

/-- Witness for the amended C7: the generated candidates for "dspa" and a
run of the strategy-4 loop where the first candidate misses and the second
("Dspa") hits, returning that mapping's descriptor. -/
theorem kindVariations_order_amended_witness :
    kindVariations ('d' :: str "spa") = some ['d' :: str "spa",
      goTitle ('d' :: str "spa"), goToUpper ('d' :: str "spa"),
      goToUpper ['d'] ++ goToLower (str "spa")] ∧
    goTitle (str "dspa") = capFirstSpec (str "dspa") ∧
    tryKindVariations kOnlyDspaKind ([str "dspa"] ++ str "Dspa" :: [str "DSPA"]) =
      (some (RESTMapping.mk dspaGVR).Resource,
        ([str "dspa"] ++ [str "Dspa"]).map fun u => .restMappings ⟨[], u⟩) :=
  ⟨kindVariations_order_amended.1 'd' (str "spa"),
   kindVariations_order_amended.2.1 (str "dspa") (by decide),
   kindVariations_order_amended.2.2 kOnlyDspaKind [str "dspa"] (str "Dspa")
     [str "DSPA"] ⟨dspaGVR⟩ [] (by decide) (by decide)⟩

end GoKubeGet
